import Mathlib

set_option autoImplicit false

/- Verification of the content-processing pipeline core: a shallow embedding of
the extraction step handler
(src/ContentProcessor/src/libs/pipeline/handlers/extract_handler.py) and of the
application-configuration accessor
(src/ContentProcessorAPI/app/appsettings.py), with theorems about the claims on
their behaviour.  External collaborators (analysis service, catalog, object
store) are represented by an oracle (`World`) answering each outside call, and
`execute` additionally returns the ordered trace of outside calls it makes, so
that claims about which calls are or are not made can be stated. -/

namespace CPS

/-- Log entry attached to a pipeline artifact.  Modelled from the spec:
libs/pipeline/entities/pipeline_file.py is not under src/; the spec describes
`log_entries` as an ordered sequence of records carrying the source step and a
message.  The handler constructs one with exactly the keys `source` and
`message`. -/
structure PipelineLogEntry where
  source : String
  message : String
deriving DecidableEq

/-- Closed set of artifact type tags from the spec's data model; the handler
uses `ExtractedContent`. -/
inductive ArtifactType where
  | SourceContent
  | ExtractedContent
  | TransformedContent
deriving DecidableEq

/-- Artifact produced during a run: name, type tag and its append-only audit
log. -/
structure Artifact where
  name : String
  artifact_type : ArtifactType
  log_entries : List PipelineLogEntry
deriving DecidableEq

/-- Reference to an intake source file (content-addressable name). -/
structure FileRef where
  name : String
deriving DecidableEq

/-- Value object returned by every step
(libs/pipeline/entities/pipeline_step_result.py, modelled from the spec as
`process_id`, `step_name` and a free-form mapping payload; the handler builds
the payload as a string-to-string dict literal). -/
structure StepResult where
  process_id : String
  step_name : String
  result : List (String × String)
deriving DecidableEq

/-- Pipeline status carried by the run context: the fields the handler reads
(`process_id`, `schema_id`). -/
structure PipelineStatus where
  process_id : String
  schema_id : String
deriving DecidableEq

/-- In-memory state of one pipeline run reachable through
`context.data_pipeline`: status, intake files, produced artifacts and the
per-step result history. -/
structure MessageContext where
  pipeline_status : PipelineStatus
  source_files : List FileRef
  files : List Artifact
  step_results : List (String × StepResult)
deriving DecidableEq

/-- Lookup of a prior step result by step name.  Modelled from the spec:
`get_previous_step_result(step_name) -> StepResult | absent` is an in-memory
lookup on the context (libs/pipeline/entities/pipeline_message_context.py not
under src/). -/
def get_previous_step_result (ctx : MessageContext) (step_name : String) :
    Option StepResult :=
  ctx.step_results.lookup step_name

/-- Accessor for the intake documents.  Modelled from the spec:
`get_source_files()` returns the ordered sequence of intake file references. -/
def get_source_files (ctx : MessageContext) : List FileRef :=
  ctx.source_files

/-- Schema catalog record (libs/pipeline/entities/schema.py, modelled from the
spec: the catalog maps a schema id to a stored file name and class name; the
handler reads `selected_schema.FileName` and `selected_schema.ClassName`). -/
structure Schema where
  FileName : String
  ClassName : String
deriving DecidableEq

/-- Loaded schema implementation.  Modelled from the spec: the artifact loaded
from the configuration container by `load_schema_from_blob`
(libs/utils/remote_module_loader.py not under src/); kept abstract as a value
identified by its class name. -/
structure SchemaModel where
  className : String
deriving DecidableEq

/-- Analyzer template for the analysis service.  Modelled from the spec: the
translation target of `build_content_understanding_schema`
(libs/utils/content_understanding_schema.py not under src/); kept abstract as a
wrapper of the model it was built from. -/
structure Template where
  fromModel : SchemaModel
deriving DecidableEq

/-- Translation of a loaded schema model into the analysis service's template
format.  Modelled from the spec: a pure translation; its internal shape is
irrelevant to the claims, only which model it was built from. -/
def build_content_understanding_schema (m : SchemaModel) : Template :=
  { fromModel := m }

/-- Structured analyzed-result value
(libs/azure_helper/model/content_understanding.py not under src/).  Modelled
from the spec: the terminal payload deserialized into a structured value;
`json` stands for its serialized form (`model_dump_json`). -/
structure AnalyzedResult where
  json : String
deriving DecidableEq

/-- Outcome of the existence check `get_analyzer_detail_by_id(analyzer_id)`.
The call either returns normally, raises a `requests.exceptions.HTTPError`
carrying an HTTP status (404 is the not-found condition), or raises some other
exception (connection error, timeout, ...). -/
inductive CheckOutcome where
  | ok
  | httpError (status : Nat)
  | otherError (msg : String)
deriving DecidableEq

/-- Terminal outcome of `poll_result`.  Modelled from the spec: blocking wait
until the job reaches a terminal state; a failed terminal state propagates as
an analysis failure, a succeeded one yields the deserialized payload. -/
inductive PollOutcome where
  | succeeded (payload : AnalyzedResult)
  | failed
deriving DecidableEq

/-- Oracle answering the external calls one execution of the step makes:
outcome of the existence check, of the catalog fetch (`none` means the fetch
raises), of the blob schema load (`none` means the load raises), and whether
create-analyzer, stream submission and upload succeed, plus the poll's terminal
outcome. -/
structure World where
  check : CheckOutcome
  schemaRecord : Option Schema
  schemaModel : Option SchemaModel
  createOk : Bool
  analyzeOk : Bool
  poll : PollOutcome
  uploadOk : Bool
deriving DecidableEq

/-- Network calls the step can make, in the order the handler issues them, with
the arguments the handler passes. -/
inductive NetCall where
  | getAnalyzerDetail (analyzer_id : String)
  | getSchema (connection_string database_name collection_name schema_id : String)
  | loadBlob (account_url container_name blob_name module_name : String)
  | createAnalyzer (analyzer_id : String) (analyzer_template : Template)
  | downloadStream (account_url container_name file_name : String)
  | analyzeStream (analyzer_id : String)
  | pollResult
  | uploadJson (account_url container_name file_name text : String)
deriving DecidableEq

/-- Errors that can terminate the step.  `inputMissing` is the spec's taxonomy
name for the missing-source-file error; the handler itself never raises it (it
hits an index error instead, see the claims below).  `checkFailed` stands for a
non-HTTPError exception propagating uncaught from the existence check; the
remaining constructors stand for the exceptions propagating from each
collaborator call, and `analysisFailed` for the terminal-failure outcome of
polling (modelled from the spec). -/
inductive StepError where
  | inputMissing
  | indexError
  | checkFailed (msg : String)
  | schemaFetchFailed
  | schemaLoadFailed
  | createAnalyzerFailed
  | analyzeSubmitFailed
  | analysisFailed
  | uploadFailed
deriving DecidableEq

/-- Configuration fields the handler reads from
`application_context.configuration`. -/
structure Config where
  app_content_understanding_endpoint : String
  app_cosmos_connstr : String
  app_cosmos_database : String
  app_cosmos_container_schema : String
  app_storage_blob_url : String
  app_cps_configuration : String
  app_cps_processes : String
deriving DecidableEq

/-- Artifact the handler creates on success: `add_file` allocates it with the
fixed name and `ArtifactType.ExtractedContent` (extract_handler.py lines
70-73; allocation with an empty log modelled from the spec, pipeline file
entity not under src/), then exactly one log entry attributing it to the
handler is appended (lines 76-83). -/
def resultArtifact (handler_name : String) : Artifact :=
  { name := "content_understanding_output.json"
    artifact_type := ArtifactType.ExtractedContent
    log_entries := [{ source := handler_name
                      message := "Content Understanding Extraction Result has been added" }] }

/-- Tail of the step after the analyzer is known to exist (extract_handler.py
lines 57-99): take the first source file (an index error on an empty list),
acquire its download stream, submit for analysis, poll, then on success create
the artifact, append its log entry, upload, and build the `StepResult`.
Returns the trace of external calls, the (possibly mutated) context, and the
outcome. -/
def analyzeAndPersist (cfg : Config) (handler_name : String) (w : World)
    (ctx : MessageContext) (analyzer_id : String) :
    List NetCall × MessageContext × Except StepError StepResult :=
  match get_source_files ctx with
  | [] => ([], ctx, Except.error StepError.indexError)
  | f :: _ =>
      let calls := [NetCall.downloadStream cfg.app_storage_blob_url cfg.app_cps_processes f.name,
                    NetCall.analyzeStream analyzer_id]
      if w.analyzeOk then
        let calls := calls ++ [NetCall.pollResult]
        match w.poll with
        | PollOutcome.failed => (calls, ctx, Except.error StepError.analysisFailed)
        | PollOutcome.succeeded payload =>
            let result_file := resultArtifact handler_name
            let ctx' := { ctx with files := ctx.files ++ [result_file] }
            let calls := calls ++ [NetCall.uploadJson cfg.app_storage_blob_url
                cfg.app_cps_processes result_file.name payload.json]
            if w.uploadOk then
              (calls, ctx',
               Except.ok { process_id := ctx.pipeline_status.process_id
                           step_name := handler_name
                           result := [("result", "success"), ("file_name", result_file.name)] })
            else (calls, ctx', Except.error StepError.uploadFailed)
      else (calls, ctx, Except.error StepError.analyzeSubmitFailed)

/-- Embedding of `ExtractHandler.execute` (extract_handler.py lines 24-99).
The analyzer id is the run's `schema_id`; the existence check is issued and a
`requests.exceptions.HTTPError` of ANY status is caught and triggers the
provisioning branch (catalog fetch, blob schema load, template build,
create-analyzer), while any other exception propagates; then the analysis and
persistence tail runs. -/
def execute (cfg : Config) (handler_name : String) (w : World)
    (ctx : MessageContext) :
    List NetCall × MessageContext × Except StepError StepResult :=
  let _prev := get_previous_step_result ctx handler_name
  let analyzer_id := ctx.pipeline_status.schema_id
  let checkCall := NetCall.getAnalyzerDetail analyzer_id
  match w.check with
  | CheckOutcome.otherError msg =>
      ([checkCall], ctx, Except.error (StepError.checkFailed msg))
  | CheckOutcome.ok =>
      let tail := analyzeAndPersist cfg handler_name w ctx analyzer_id
      (checkCall :: tail.1, tail.2)
  | CheckOutcome.httpError _ =>
      let fetchCall := NetCall.getSchema cfg.app_cosmos_connstr cfg.app_cosmos_database
          cfg.app_cosmos_container_schema analyzer_id
      match w.schemaRecord with
      | none => ([checkCall, fetchCall], ctx, Except.error StepError.schemaFetchFailed)
      | some sRec =>
          let loadCall := NetCall.loadBlob cfg.app_storage_blob_url
              (cfg.app_cps_configuration ++ "/Schemas/" ++ analyzer_id)
              sRec.FileName sRec.ClassName
          match w.schemaModel with
          | none => ([checkCall, fetchCall, loadCall], ctx, Except.error StepError.schemaLoadFailed)
          | some m =>
              let createCall := NetCall.createAnalyzer analyzer_id
                  (build_content_understanding_schema m)
              if w.createOk then
                let tail := analyzeAndPersist cfg handler_name w ctx analyzer_id
                (checkCall :: fetchCall :: loadCall :: createCall :: tail.1, tail.2)
              else
                ([checkCall, fetchCall, loadCall, createCall], ctx,
                 Except.error StepError.createAnalyzerFailed)

/-- Provisioning calls: catalog fetch, blob schema load, create-analyzer. -/
def NetCall.isProvisionCall : NetCall → Bool
  | NetCall.getSchema _ _ _ _ => true
  | NetCall.loadBlob _ _ _ _ => true
  | NetCall.createAnalyzer _ _ => true
  | _ => false

/-- Create-analyzer calls. -/
def NetCall.isCreateCall : NetCall → Bool
  | NetCall.createAnalyzer _ _ => true
  | _ => false

/-- Calls of the submission/polling/upload phase. -/
def NetCall.isSubmitOrLaterCall : NetCall → Bool
  | NetCall.downloadStream _ _ _ => true
  | NetCall.analyzeStream _ => true
  | NetCall.pollResult => true
  | NetCall.uploadJson _ _ _ _ => true
  | _ => false

/-- Upload calls. -/
def NetCall.isUploadCall : NetCall → Bool
  | NetCall.uploadJson _ _ _ _ => true
  | _ => false

/-- Worlds whose answers let the execution reach the submission point: the
existence check returns normally, or it raises an HTTPError and every
provisioning call succeeds. -/
def reachesSubmission (w : World) : Bool :=
  match w.check with
  | CheckOutcome.ok => true
  | CheckOutcome.httpError _ => w.schemaRecord.isSome && w.schemaModel.isSome && w.createOk
  | CheckOutcome.otherError _ => false

/-- Embedding of `AppConfiguration` (appsettings.py lines 14-26): the settings
fields, with machine integers as `Int` and the flag as `Bool`. -/
structure AppConfiguration where
  app_storage_blob_url : String
  app_storage_queue_url : String
  app_cosmos_connstr : String
  app_cosmos_database : String
  app_cosmos_container_schema : String
  app_cosmos_container_process : String
  app_cps_configuration : String
  app_cps_processes : String
  app_message_queue_extract : String
  app_cps_max_filesize_mb : Int
  app_logging_enable : Bool
  app_logging_level : String
deriving DecidableEq

/-- Observable one-time effects of `get_app_config`: constructing the
`AppConfiguration` from the environment, then configuring or disabling
logging. -/
inductive InitEffect where
  | constructedConfig
  | loggingConfigured (level : String)
  | loggingDisabled
deriving DecidableEq

/-- Effects of the first call to `get_app_config` (appsettings.py lines 40-45):
construct the configuration, then either set the logging level or disable
logging according to `app_logging_enable`. -/
def firstInitEffects (env : AppConfiguration) : List InitEffect :=
  if env.app_logging_enable then
    [InitEffect.constructedConfig, InitEffect.loggingConfigured env.app_logging_level]
  else
    [InitEffect.constructedConfig, InitEffect.loggingDisabled]

/-- Embedding of `get_app_config` (appsettings.py lines 37-46): `env` is the
configuration the environment would produce, the state is the module-global
`app_config` (`none` before first construction).  Returns the returned value,
the new state and the effects performed by this call. -/
def get_app_config (env : AppConfiguration) (s : Option AppConfiguration) :
    AppConfiguration × Option AppConfiguration × List InitEffect :=
  match s with
  | some c => (c, some c, [])
  | none => (env, some env, firstInitEffects env)

/-- Iterates `get_app_config` a given number of times from a state, collecting
the returned values and the concatenated effects. -/
def run_get_app_config (env : AppConfiguration) :
    Nat → Option AppConfiguration →
    List AppConfiguration × Option AppConfiguration × List InitEffect
  | 0, s => ([], s, [])
  | n + 1, s =>
      let first := get_app_config env s
      let rest := run_get_app_config env n first.2.1
      (first.1 :: rest.1, rest.2.1, first.2.2 ++ rest.2.2)

theorem run_get_app_config_some (env c : AppConfiguration) (n : Nat) :
    run_get_app_config env n (some c) = (List.replicate n c, some c, []) := by
  induction n with
  | zero => rfl
  | succ n ih =>
      simp [run_get_app_config, get_app_config, ih, List.replicate]

/-- Sample configuration for concrete evaluations. -/
def cfg0 : Config :=
  { app_content_understanding_endpoint := "https://cu.example"
    app_cosmos_connstr := "connstr"
    app_cosmos_database := "db"
    app_cosmos_container_schema := "schemas"
    app_storage_blob_url := "https://blob.example"
    app_cps_configuration := "cps-configuration"
    app_cps_processes := "cps-processes" }

/-- Sample world in which every external call succeeds and the analyzer
already exists. -/
def okWorld : World :=
  { check := CheckOutcome.ok
    schemaRecord := some { FileName := "schema_file.py", ClassName := "InvoiceSchema" }
    schemaModel := some { className := "InvoiceSchema" }
    createOk := true
    analyzeOk := true
    poll := PollOutcome.succeeded { json := "payload" }
    uploadOk := true }

/-- Sample run context with one source file. -/
def ctx0 : MessageContext :=
  { pipeline_status := { process_id := "p1", schema_id := "inv-2025" }
    source_files := [{ name := "doc.pdf" }]
    files := []
    step_results := [] }

/-- Sample run context with no source files. -/
def emptyCtx : MessageContext :=
  { pipeline_status := { process_id := "p1", schema_id := "inv-2025" }
    source_files := []
    files := []
    step_results := [] }

/-- Sample world where the existence check raises an HTTPError with status 500
(service error, not the not-found condition). -/
def err500World : World := { okWorld with check := CheckOutcome.httpError 500 }

/-- Sample world where the existence check raises an HTTPError with status 404
(the not-found condition). -/
def notFoundWorld : World := { okWorld with check := CheckOutcome.httpError 404 }

/-- Sample world where the existence check raises a non-HTTP exception. -/
def otherErrWorld : World := { okWorld with check := CheckOutcome.otherError "timeout" }

/-- Sample world where polling ends in a terminal failure. -/
def pollFailWorld : World := { okWorld with poll := PollOutcome.failed }

/-- Step result produced by the sample successful run. -/
def sr0 : StepResult :=
  { process_id := "p1"
    step_name := "extract"
    result := [("result", "success"), ("file_name", "content_understanding_output.json")] }

theorem analyzeAndPersist_filter_provision (cfg : Config) (hn : String)
    (w : World) (ctx : MessageContext) (aid : String) :
    (analyzeAndPersist cfg hn w ctx aid).1.filter NetCall.isProvisionCall = [] := by
  unfold analyzeAndPersist
  split
  · rfl
  · split
    · split
      · simp [NetCall.isProvisionCall]
      · split <;> simp [NetCall.isProvisionCall]
    · simp [NetCall.isProvisionCall]

theorem analyzeAndPersist_filter_create (cfg : Config) (hn : String)
    (w : World) (ctx : MessageContext) (aid : String) :
    (analyzeAndPersist cfg hn w ctx aid).1.filter NetCall.isCreateCall = [] := by
  unfold analyzeAndPersist
  split
  · rfl
  · split
    · split
      · simp [NetCall.isCreateCall]
      · split <;> simp [NetCall.isCreateCall]
    · simp [NetCall.isCreateCall]

/-- C1 counterexample: when the existence check raises an HTTPError with
status 500 (not the not-found condition), the handler nevertheless enters the
provisioning branch and issues the catalog fetch, because the except-clause
catches every HTTPError (extract_handler.py line 39). -/
theorem analyzer_check_http500_counterexample :
    NetCall.getSchema "connstr" "db" "schemas" "inv-2025" ∈
      (execute cfg0 "extract" err500World ctx0).1 ∧
    (execute cfg0 "extract" err500World ctx0).2.2 = Except.ok sr0 :=
  ⟨by decide, rfl⟩

/-- C1 (amended): a non-HTTP exception from the existence check propagates as
a hard failure without entering provisioning (only the existence-check call is
made and the context is untouched), but ANY `requests.exceptions.HTTPError`
from the check — not only the not-found condition — triggers the provisioning
branch, whose first call is the catalog fetch. -/
theorem check_error_narrowing (cfg : Config) (hn : String) (w : World)
    (ctx : MessageContext) :
    (∀ msg, w.check = CheckOutcome.otherError msg →
      execute cfg hn w ctx =
        ([NetCall.getAnalyzerDetail ctx.pipeline_status.schema_id], ctx,
          Except.error (StepError.checkFailed msg))) ∧
    (∀ s, w.check = CheckOutcome.httpError s →
      NetCall.getSchema cfg.app_cosmos_connstr cfg.app_cosmos_database
        cfg.app_cosmos_container_schema ctx.pipeline_status.schema_id ∈
        (execute cfg hn w ctx).1) := by
  constructor
  · intro msg hc
    simp [execute, hc]
  · intro s hc
    rcases w with ⟨wc, wsr, wsm, wco, wao, wp, wu⟩
    simp only at hc
    subst hc
    cases wsr <;> cases wsm <;> cases wco <;> simp [execute]

/-- Witness for the amended C1 theorem at concrete inputs. -/
theorem check_error_narrowing_witness :
    (execute cfg0 "extract" otherErrWorld ctx0 =
      ([NetCall.getAnalyzerDetail ctx0.pipeline_status.schema_id], ctx0,
        Except.error (StepError.checkFailed "timeout"))) ∧
    (NetCall.getSchema cfg0.app_cosmos_connstr cfg0.app_cosmos_database
        cfg0.app_cosmos_container_schema ctx0.pipeline_status.schema_id ∈
      (execute cfg0 "extract" err500World ctx0).1) :=
  ⟨(check_error_narrowing cfg0 "extract" otherErrWorld ctx0).1 "timeout" rfl,
   (check_error_narrowing cfg0 "extract" err500World ctx0).2 500 rfl⟩

/-- C2 counterexample: on an empty source-file list the step does not fail
with the spec's `InputMissing` error, and a network call (the analyzer
existence check) has already been made before the failure — the handler only
hits the index error at `get_source_files()[0]` (extract_handler.py line
59). -/
theorem input_missing_counterexample :
    (execute cfg0 "extract" okWorld emptyCtx).2.2 =
      Except.error StepError.indexError ∧
    StepError.indexError ≠ StepError.inputMissing ∧
    (execute cfg0 "extract" okWorld emptyCtx).1 =
      [NetCall.getAnalyzerDetail "inv-2025"] :=
  ⟨rfl, by decide, rfl⟩

/-- C2 (amended): when execution reaches the submission point (the existence
check returned, or provisioning completed after an HTTPError) and the context
has no source files, the step fails with an index error; the failure leaves
the context unchanged and occurs before any submission, polling or upload
call, but only after the existence-check (and any provisioning) network calls
have been made. -/
theorem empty_source_files_postcheck (cfg : Config) (hn : String) (w : World)
    (ctx : MessageContext) (hreach : reachesSubmission w = true)
    (hempty : ctx.source_files = []) :
    (execute cfg hn w ctx).2.2 = Except.error StepError.indexError ∧
    (execute cfg hn w ctx).2.1 = ctx ∧
    (execute cfg hn w ctx).1.filter NetCall.isSubmitOrLaterCall = [] ∧
    (execute cfg hn w ctx).1 ≠ [] := by
  rcases w with ⟨wc, wsr, wsm, wco, wao, wp, wu⟩
  cases wc <;> cases wsr <;> cases wsm <;> cases wco <;>
    simp_all [execute, analyzeAndPersist, get_source_files, reachesSubmission,
      NetCall.isSubmitOrLaterCall]

/-- Witness for the amended C2 theorem at concrete inputs. -/
theorem empty_source_files_postcheck_witness :
    (execute cfg0 "extract" okWorld emptyCtx).2.2 =
      Except.error StepError.indexError ∧
    (execute cfg0 "extract" okWorld emptyCtx).2.1 = emptyCtx ∧
    (execute cfg0 "extract" okWorld emptyCtx).1.filter
      NetCall.isSubmitOrLaterCall = [] ∧
    (execute cfg0 "extract" okWorld emptyCtx).1 ≠ [] :=
  empty_source_files_postcheck cfg0 "extract" okWorld emptyCtx rfl rfl

/-- C3: when the existence check succeeds, no catalog fetch, no blob schema
load and no create-analyzer call is made; in particular a second execution on
the context produced by a first run, with the existence check again
succeeding, makes no create-analyzer call. -/
theorem existing_analyzer_short_circuit (cfg : Config) (hn : String)
    (w : World) (ctx : MessageContext) (hok : w.check = CheckOutcome.ok) :
    (execute cfg hn w ctx).1.filter NetCall.isProvisionCall = [] ∧
    (∀ w2, w2.check = CheckOutcome.ok →
      (execute cfg hn w2 (execute cfg hn w ctx).2.1).1.filter
        NetCall.isCreateCall = []) := by
  constructor
  · have h1 := analyzeAndPersist_filter_provision cfg hn w ctx
      ctx.pipeline_status.schema_id
    simp [execute, hok, NetCall.isProvisionCall, h1]
  · intro w2 hok2
    generalize (execute cfg hn w ctx).2.1 = ctx2
    have h2 := analyzeAndPersist_filter_create cfg hn w2 ctx2
      ctx2.pipeline_status.schema_id
    simp [execute, hok2, NetCall.isCreateCall, h2]

/-- Witness for the C3 theorem at concrete inputs. -/
theorem existing_analyzer_short_circuit_witness :
    (execute cfg0 "extract" okWorld ctx0).1.filter NetCall.isProvisionCall = [] ∧
    (∀ w2, w2.check = CheckOutcome.ok →
      (execute cfg0 "extract" w2 (execute cfg0 "extract" okWorld ctx0).2.1).1.filter
        NetCall.isCreateCall = []) :=
  existing_analyzer_short_circuit cfg0 "extract" okWorld ctx0 rfl

/-- C4: when the existence check raises the not-found condition and every
provisioning call succeeds, the first four external calls are, in order: the
existence check, the catalog fetch by schema id, the blob load from the
configuration container at path cps-configuration/Schemas/schema-id with the
record's stored file name and class name, and create-analyzer keyed by the
same schema id with the template built from the loaded model; create-analyzer
is called exactly once in the whole execution. -/
theorem provisioning_sequence (cfg : Config) (hn : String) (w : World)
    (ctx : MessageContext) (sRec : Schema) (m : SchemaModel)
    (hnf : w.check = CheckOutcome.httpError 404)
    (hrec : w.schemaRecord = some sRec) (hm : w.schemaModel = some m)
    (hcreate : w.createOk = true) :
    (execute cfg hn w ctx).1.take 4 =
      [NetCall.getAnalyzerDetail ctx.pipeline_status.schema_id,
       NetCall.getSchema cfg.app_cosmos_connstr cfg.app_cosmos_database
         cfg.app_cosmos_container_schema ctx.pipeline_status.schema_id,
       NetCall.loadBlob cfg.app_storage_blob_url
         (cfg.app_cps_configuration ++ "/Schemas/" ++ ctx.pipeline_status.schema_id)
         sRec.FileName sRec.ClassName,
       NetCall.createAnalyzer ctx.pipeline_status.schema_id
         (build_content_understanding_schema m)] ∧
    (execute cfg hn w ctx).1.filter NetCall.isCreateCall =
      [NetCall.createAnalyzer ctx.pipeline_status.schema_id
        (build_content_understanding_schema m)] := by
  have h1 := analyzeAndPersist_filter_create cfg hn w ctx
    ctx.pipeline_status.schema_id
  simp [execute, hnf, hrec, hm, hcreate, NetCall.isCreateCall, h1]

/-- Witness for the C4 theorem at concrete inputs. -/
theorem provisioning_sequence_witness :
    (execute cfg0 "extract" notFoundWorld ctx0).1.take 4 =
      [NetCall.getAnalyzerDetail ctx0.pipeline_status.schema_id,
       NetCall.getSchema cfg0.app_cosmos_connstr cfg0.app_cosmos_database
         cfg0.app_cosmos_container_schema ctx0.pipeline_status.schema_id,
       NetCall.loadBlob cfg0.app_storage_blob_url
         (cfg0.app_cps_configuration ++ "/Schemas/" ++ ctx0.pipeline_status.schema_id)
         (Schema.FileName { FileName := "schema_file.py", ClassName := "InvoiceSchema" })
         (Schema.ClassName { FileName := "schema_file.py", ClassName := "InvoiceSchema" }),
       NetCall.createAnalyzer ctx0.pipeline_status.schema_id
         (build_content_understanding_schema { className := "InvoiceSchema" })] ∧
    (execute cfg0 "extract" notFoundWorld ctx0).1.filter NetCall.isCreateCall =
      [NetCall.createAnalyzer ctx0.pipeline_status.schema_id
        (build_content_understanding_schema { className := "InvoiceSchema" })] :=
  provisioning_sequence cfg0 "extract" notFoundWorld ctx0
    { FileName := "schema_file.py", ClassName := "InvoiceSchema" }
    { className := "InvoiceSchema" } rfl rfl rfl rfl

theorem execute_ok_characterization (cfg : Config) (hn : String) (w : World)
    (ctx : MessageContext) (sr : StepResult)
    (hok : (execute cfg hn w ctx).2.2 = Except.ok sr) :
    sr = { process_id := ctx.pipeline_status.process_id
           step_name := hn
           result := [("result", "success"),
                      ("file_name", "content_understanding_output.json")] } ∧
    (execute cfg hn w ctx).2.1 =
      { ctx with files := ctx.files ++ [resultArtifact hn] } := by
  rcases w with ⟨wc, wsr, wsm, wco, wao, wp, wu⟩
  cases wc <;> cases wsr <;> cases wsm <;> cases wco <;> cases wao <;>
    cases wp <;> cases wu <;> cases hsf : ctx.source_files <;>
    simp_all [execute, analyzeAndPersist, get_source_files, resultArtifact]

/-- C5: when execution reaches the submission point and polling ends in a
terminal failure, the step fails with the analysis failure, the context —
including its `files` sequence — is unchanged (so `add_file` was never
reached), and no upload call is made. -/
theorem poll_failure_no_artifact (cfg : Config) (hn : String) (w : World)
    (ctx : MessageContext) (f : FileRef) (fs : List FileRef)
    (hreach : reachesSubmission w = true)
    (hsf : ctx.source_files = f :: fs)
    (hao : w.analyzeOk = true) (hpoll : w.poll = PollOutcome.failed) :
    (execute cfg hn w ctx).2.2 = Except.error StepError.analysisFailed ∧
    (execute cfg hn w ctx).2.1 = ctx ∧
    (execute cfg hn w ctx).1.filter NetCall.isUploadCall = [] := by
  rcases w with ⟨wc, wsr, wsm, wco, wao, wp, wu⟩
  cases wc <;> cases wsr <;> cases wsm <;> cases wco <;>
    simp_all [execute, analyzeAndPersist, get_source_files, reachesSubmission,
      NetCall.isUploadCall]

/-- Witness for the C5 theorem at concrete inputs. -/
theorem poll_failure_no_artifact_witness :
    (execute cfg0 "extract" pollFailWorld ctx0).2.2 =
      Except.error StepError.analysisFailed ∧
    (execute cfg0 "extract" pollFailWorld ctx0).2.1 = ctx0 ∧
    (execute cfg0 "extract" pollFailWorld ctx0).1.filter
      NetCall.isUploadCall = [] :=
  poll_failure_no_artifact cfg0 "extract" pollFailWorld ctx0
    { name := "doc.pdf" } [] rfl rfl rfl rfl

/-- C6: on success the returned step result's `process_id` is copied verbatim
from the run context's pipeline status. -/
theorem step_result_process_id (cfg : Config) (hn : String) (w : World)
    (ctx : MessageContext) (sr : StepResult)
    (hok : (execute cfg hn w ctx).2.2 = Except.ok sr) :
    sr.process_id = ctx.pipeline_status.process_id := by
  rw [(execute_ok_characterization cfg hn w ctx sr hok).1]

/-- Witness for the C6 theorem at concrete inputs. -/
theorem step_result_process_id_witness :
    sr0.process_id = ctx0.pipeline_status.process_id :=
  step_result_process_id cfg0 "extract" okWorld ctx0 sr0 rfl

/-- C7 counterexample: a concrete successful execution returns a result
payload with no "status" key at all — the handler writes the success marker
under the key "result" (extract_handler.py line 96). -/
theorem status_key_counterexample :
    (execute cfg0 "extract" okWorld ctx0).2.2 = Except.ok sr0 ∧
    List.lookup "status" sr0.result = none :=
  ⟨rfl, by decide⟩

/-- C7 (amended): on success the returned step result's payload is the mapping
with key "result" bound to "success" — not key "status" — and key "file_name"
bound to the created artifact's name. -/
theorem success_result_payload (cfg : Config) (hn : String) (w : World)
    (ctx : MessageContext) (sr : StepResult)
    (hok : (execute cfg hn w ctx).2.2 = Except.ok sr) :
    sr.result = [("result", "success"),
                 ("file_name", (resultArtifact hn).name)] := by
  rw [(execute_ok_characterization cfg hn w ctx sr hok).1]
  rfl

/-- Witness for the amended C7 theorem at concrete inputs. -/
theorem success_result_payload_witness :
    sr0.result = [("result", "success"),
                  ("file_name", (resultArtifact "extract").name)] :=
  success_result_payload cfg0 "extract" okWorld ctx0 sr0 rfl

/-- C8: on success the artifact appended last to the run's files has the fixed
name, the `ExtractedContent` type, and a log of length exactly one whose
single entry attributes the artifact to this step's name. -/
theorem extracted_artifact_shape (cfg : Config) (hn : String) (w : World)
    (ctx : MessageContext) (sr : StepResult)
    (hok : (execute cfg hn w ctx).2.2 = Except.ok sr) :
    (execute cfg hn w ctx).2.1.files.getLast? = some (resultArtifact hn) ∧
    (resultArtifact hn).name = "content_understanding_output.json" ∧
    (resultArtifact hn).artifact_type = ArtifactType.ExtractedContent ∧
    (resultArtifact hn).log_entries =
      [{ source := hn
         message := "Content Understanding Extraction Result has been added" }] := by
  refine ⟨?_, rfl, rfl, rfl⟩
  rw [(execute_ok_characterization cfg hn w ctx sr hok).2]
  simp

/-- Witness for the C8 theorem at concrete inputs. -/
theorem extracted_artifact_shape_witness :
    (execute cfg0 "extract" okWorld ctx0).2.1.files.getLast? =
      some (resultArtifact "extract") ∧
    (resultArtifact "extract").name = "content_understanding_output.json" ∧
    (resultArtifact "extract").artifact_type = ArtifactType.ExtractedContent ∧
    (resultArtifact "extract").log_entries =
      [{ source := "extract"
         message := "Content Understanding Extraction Result has been added" }] :=
  extracted_artifact_shape cfg0 "extract" okWorld ctx0 sr0 rfl

/-- C9: on success exactly one artifact is appended to the context's files
(the earlier files stand unchanged as a strict front segment), and the source
files, step results and pipeline status of the context are untouched. -/
theorem frame_single_artifact (cfg : Config) (hn : String) (w : World)
    (ctx : MessageContext) (sr : StepResult)
    (hok : (execute cfg hn w ctx).2.2 = Except.ok sr) :
    (execute cfg hn w ctx).2.1.files = ctx.files ++ [resultArtifact hn] ∧
    (execute cfg hn w ctx).2.1.source_files = ctx.source_files ∧
    (execute cfg hn w ctx).2.1.step_results = ctx.step_results ∧
    (execute cfg hn w ctx).2.1.pipeline_status = ctx.pipeline_status := by
  rw [(execute_ok_characterization cfg hn w ctx sr hok).2]
  exact ⟨rfl, rfl, rfl, rfl⟩

/-- Witness for the C9 theorem at concrete inputs. -/
theorem frame_single_artifact_witness :
    (execute cfg0 "extract" okWorld ctx0).2.1.files =
      ctx0.files ++ [resultArtifact "extract"] ∧
    (execute cfg0 "extract" okWorld ctx0).2.1.source_files = ctx0.source_files ∧
    (execute cfg0 "extract" okWorld ctx0).2.1.step_results = ctx0.step_results ∧
    (execute cfg0 "extract" okWorld ctx0).2.1.pipeline_status =
      ctx0.pipeline_status :=
  frame_single_artifact cfg0 "extract" okWorld ctx0 sr0 rfl

/-- C10: within one process, `get_app_config` constructs the configuration and
configures logging exactly on the first call, and every call of the sequence,
the first included, returns that same configuration; later calls have no
further effect and leave the cached state unchanged. -/
theorem get_app_config_singleton (env : AppConfiguration) (n : Nat) :
    run_get_app_config env (n + 1) none =
      (List.replicate (n + 1) env, some env, firstInitEffects env) ∧
    List.count InitEffect.constructedConfig (firstInitEffects env) = 1 := by
  constructor
  · simp [run_get_app_config, get_app_config, run_get_app_config_some,
      List.replicate]
  · unfold firstInitEffects
    split <;> simp [List.count_cons]

end CPS
